import Mathlib

/-!
Verification of the Home-Serve-Pro booking / signature / allocation core.

The Python source is shallowly embedded: MongoDB documents become Lean
structures, collection state becomes lists of documents threaded through
the operations, datetime values become natural-number timestamps (each
call of datetime.utcnow in the source is a parameter of the embedding),
and exceptions become Except values.  SHA-256 is modelled symbolically:
a hash value is identified by its preimage string, so two modelled
hashes are equal exactly when their preimages are equal (hash collisions
are outside the model).
-/

namespace HomeServePro

/-- Symbolic SHA-256 digest, identified by its preimage. -/
structure Sha256 where
  preimage : String
deriving DecidableEq, Repr

/-- Model of hashlib.sha256(s.encode()).hexdigest(). -/
def sha256_hexdigest (s : String) : Sha256 := ⟨s⟩

/-- Model of datetime.isoformat on the Nat-encoded clock. -/
def isoformat (t : Nat) : String := toString t

/-- One document of the bookings collection, restricted to the fields the
booking / signature core reads or writes (app/models/booking.py). -/
structure BookingDoc where
  id : String
  customer_id : String
  vendor_id : Option String
  service_id : String
  status : String
  signature_status : String
  signature_hash : Option Sha256
  signature_requested_at : Option Nat
  signature_submitted_at : Option Nat
  signature_timeout_at : Option Nat
  signature_escalated : Bool
  updated_at : Nat
deriving DecidableEq, Repr

namespace Booking

/-- Status constants of app/models/booking.py. -/
def STATUS_PENDING : String := "pending"

def STATUS_ACCEPTED : String := "accepted"

def STATUS_REJECTED : String := "rejected"

def STATUS_IN_PROGRESS : String := "in_progress"

def STATUS_COMPLETED : String := "completed"

def STATUS_VERIFIED : String := "verified"

def STATUS_CANCELLED : String := "cancelled"

end Booking

/-- Mongo update_one with an _id filter: rewrite the first document whose
id matches, and report modified_count > 0, which is true exactly when the
rewritten document differs from the stored one. -/
def updateOne (db : List BookingDoc) (bid : String) (f : BookingDoc → BookingDoc) :
    List BookingDoc × Bool :=
  match db with
  | [] => ([], false)
  | b :: rest =>
    if b.id = bid then
      let b' := f b
      (b' :: rest, decide (b' ≠ b))
    else
      let p := updateOne rest bid f
      (b :: p.1, p.2)

/-- Mongo find_one with an _id filter (Booking.find_by_id). -/
def findById (db : List BookingDoc) (bid : String) : Option BookingDoc :=
  db.find? (fun b => b.id == bid)

namespace Booking

/-- Booking.request_signature: unconditional update_one setting the
signature axis to requested and opening a timeout_hours window. -/
def request_signature (db : List BookingDoc) (bid : String) (now : Nat)
    (timeout_hours : Nat) : List BookingDoc × Bool :=
  updateOne db bid fun b =>
    { b with
      signature_status := "requested"
      signature_requested_at := some now
      signature_timeout_at := some (now + timeout_hours * 3600)
      updated_at := now }

/-- Booking.submit_signature: unconditional update_one setting the
signature axis to signed and the booking status to verified. -/
def submit_signature_model (db : List BookingDoc) (bid : String) (h : Sha256)
    (now : Nat) : List BookingDoc × Bool :=
  updateOne db bid fun b =>
    { b with
      signature_status := "signed"
      signature_hash := some h
      signature_submitted_at := some now
      status := STATUS_VERIFIED
      updated_at := now }

/-- Booking.escalate_signature_timeout: unconditional update_one setting
signature_status to expired and signature_escalated to true.  The function
body contains no guard of any kind. -/
def escalate_signature_timeout (db : List BookingDoc) (bid : String)
    (now : Nat) : List BookingDoc × Bool :=
  updateOne db bid fun b =>
    { b with
      signature_status := "expired"
      signature_escalated := true
      updated_at := now }

/-- Booking.get_expired_signatures: the sweep query
signature_status = requested, signature_timeout_at < now,
signature_escalated = false.  A missing timeout does not match the
range filter. -/
def get_expired_signatures (db : List BookingDoc) (now : Nat) : List BookingDoc :=
  db.filter fun b =>
    b.signature_status == "requested" &&
    (match b.signature_timeout_at with
     | some t => decide (t < now)
     | none => false) &&
    b.signature_escalated == false

end Booking

/-- One document of the notifications collection, restricted to the
fields the sweep and its dedupe guard read (app/models/notification.py);
booking_id is the booking_id entry of the data payload. -/
structure NotificationDoc where
  user_id : String
  ntype : String
  booking_id : String
  created_at : Nat
deriving DecidableEq, Repr

/-- Notification type constants used by the signature workflow. -/
def TYPE_ESCALATION : String := "escalation"

/-- Notification type for a signature reminder. -/
def TYPE_SIGNATURE_REMINDER : String := "signature_reminder"

/-- Environment of one sweep invocation of
app/tasks/signature_monitor.py: the ids of the super_admin users
returned by User.find_all, the ids of the existing users (User.find_by_id
returns a record exactly for these), and an oracle saying for which
recipient id Notification.create raises an exception (modelling a
notification dispatch error). -/
structure SweepEnv where
  admins : List String
  users : List String
  notifyFails : String → Bool

/-- Mutable state threaded through one sweep: the bookings collection,
the notifications collection, and the audit entries written so far. -/
structure SweepState where
  db : List BookingDoc
  notifs : List NotificationDoc
  audits : List String
deriving DecidableEq, Repr

/-- Notification.create inside the sweep: either raises (error carries
the state at the raise point, since earlier writes persist) or appends
the record. -/
def notificationCreate (env : SweepEnv) (st : SweepState) (uid ntype bid : String)
    (now : Nat) : Except SweepState SweepState :=
  if env.notifyFails uid then .error st
  else .ok { st with notifs := st.notifs ++ [⟨uid, ntype, bid, now⟩] }

/-- Notify every admin in turn (the for admin in admin_users loop); a
raise in any iteration propagates. -/
def notifyAdmins (env : SweepEnv) (now : Nat) (bid : String) :
    List String → SweepState → Except SweepState SweepState
  | [], st => .ok st
  | a :: rest, st =>
    match notificationCreate env st a TYPE_ESCALATION bid now with
    | .error e => .error e
    | .ok st' => notifyAdmins env now bid rest st'

/-- Body of the for booking in expired_bookings loop of
check_signature_timeouts: escalate, and when the write reported modified
notify the admins, the customer and the vendor and write an audit entry.
Logging and the socketio emits are not modelled.  Returns whether the
escalated branch was taken. -/
def processExpired (env : SweepEnv) (now : Nat) (b : BookingDoc)
    (st : SweepState) : Except SweepState (SweepState × Bool) :=
  let p := Booking.escalate_signature_timeout st.db b.id now
  let st1 : SweepState := { st with db := p.1 }
  if p.2 then
    match notifyAdmins env now b.id env.admins st1 with
    | .error e => .error e
    | .ok st2 =>
      match (if env.users.contains b.customer_id then
               notificationCreate env st2 b.customer_id TYPE_ESCALATION b.id now
             else .ok st2) with
      | .error e => .error e
      | .ok st3 =>
        match (match b.vendor_id with
               | some v =>
                 if env.users.contains v then
                   notificationCreate env st3 v TYPE_ESCALATION b.id now
                 else .ok st3
               | none => .ok st3) with
        | .error e => .error e
        | .ok st4 => .ok ({ st4 with audits := st4.audits ++ [b.id] }, true)
  else
    .ok (st1, false)

/-- The escalation loop over the snapshot returned by the initial query,
counting the bookings for which the escalated branch ran. -/
def sweepLoop (env : SweepEnv) (now : Nat) :
    List BookingDoc → SweepState → Nat → Except SweepState (SweepState × Nat)
  | [], st, c => .ok (st, c)
  | b :: rest, st, c =>
    match processExpired env now b st with
    | .error st' => .error st'
    | .ok (st', esc) => sweepLoop env now rest st' (if esc then c + 1 else c)

/-- check_signature_timeouts: query the expired snapshot, run the loop,
and return the escalated count.  The whole loop sits inside one
try/except: an exception anywhere is caught at the function level, only
logged, and the function returns 0 with whatever state the writes had
reached. -/
def check_signature_timeouts (env : SweepEnv) (now : Nat)
    (db : List BookingDoc) (notifs : List NotificationDoc) :
    Nat × SweepState :=
  let expired := Booking.get_expired_signatures db now
  match sweepLoop env now expired ⟨db, notifs, []⟩ 0 with
  | .ok (st, c) => (c, st)
  | .error st => (0, st)

/-- One document of the vendors collection, restricted to the fields the
allocation and reassignment paths read (app/models/vendor.py). -/
structure VendorDoc where
  id : String
  user_id : String
  onboarding_status : String
  availability : Bool
  pincodes : List String
  services : List String
  ratings : Rat
  completed_jobs : Nat
deriving DecidableEq, Repr

namespace Vendor

/-- Approval status constant of app/models/vendor.py. -/
def STATUS_APPROVED : String := "approved"

/-- Vendor.find_available_by_service: Mongo query for approved, available
vendors offering the service; when the pincode argument is truthy (not
None and not empty) the query additionally requires the pincodes array to
contain the pincode.  An equality filter on an array field matches by
membership, so an empty pincodes array matches no pincode filter. -/
def find_available_by_service (db : List VendorDoc) (service_name : String)
    (pincode : Option String) : List VendorDoc :=
  db.filter fun v =>
    v.onboarding_status == STATUS_APPROVED &&
    v.availability &&
    v.services.contains service_name &&
    (match pincode with
     | some p => if p == "" then true else v.pincodes.contains p
     | none => true)

/-- Vendor.find_by_id over the modelled collection. -/
def find_by_id (db : List VendorDoc) (vid : String) : Option VendorDoc :=
  db.find? (fun v => v.id == vid)

end Vendor

/-- The pincode acceptance test of the customer-selected-vendor branch of
create_booking (routes/customer.py): reject only when the vendor declares
a non-empty pincode list that does not contain the booking pincode, so an
empty list passes. -/
def selected_vendor_serves_pincode (v : VendorDoc) (pincode : String) : Bool :=
  !(!v.pincodes.isEmpty && !v.pincodes.contains pincode)

/-- The sort key of the auto-assignment in create_booking
(routes/customer.py): the Python key function returns the tuple
(ratings, completed_jobs, availability as 0 or 1). -/
def allocKey (v : VendorDoc) : Rat × Nat × Nat :=
  (v.ratings, v.completed_jobs, if v.availability then 1 else 0)

/-- Python tuple comparison, strict less-than, on the allocation key. -/
def allocKeyLt (x y : Rat × Nat × Nat) : Bool :=
  decide (x.1 < y.1) ||
  (decide (x.1 = y.1) &&
    (decide (x.2.1 < y.2.1) ||
     (decide (x.2.1 = y.2.1) && decide (x.2.2 < y.2.2))))

/-- The auto-assignment step of create_booking: Python max over the
candidate list with the key above.  max keeps the first element seen and
replaces it only when a later element compares strictly greater, so a
full tie is resolved to the earliest candidate in list order. -/
def auto_select_vendor (available_vendors : List VendorDoc) : Option VendorDoc :=
  match available_vendors with
  | [] => none
  | v :: rest =>
    some (rest.foldl (fun best w => if allocKeyLt (allocKey best) (allocKey w) then w else best) v)

/-- Outcome of admin_reassign_booking (routes/super_admin.py). -/
inductive ReassignResult where
  | success
  | errVendorIdRequired
  | errBookingNotFound
  | errVendorNotFound
  | errUpdateFailed
deriving DecidableEq, Repr

/-- Python falsiness of an optional string field read with data.get. -/
def isFalsyStr (s : Option String) : Bool :=
  match s with
  | none => true
  | some s => s == ""

/-- admin_reassign_booking: requires a vendor_id in the body, an existing
booking and an existing vendor, and then rewrites vendor_id through
Booking.update with no check of the onboarding status or the
availability of the target vendor and no change to the booking status. -/
def admin_reassign_booking (db : List BookingDoc) (vendors : List VendorDoc)
    (booking_id : String) (vendor_id : Option String) (now : Nat) :
    ReassignResult × List BookingDoc :=
  if isFalsyStr vendor_id then (.errVendorIdRequired, db)
  else
    let vid := vendor_id.getD ""
    match findById db booking_id with
    | none => (.errBookingNotFound, db)
    | some _ =>
      match Vendor.find_by_id vendors vid with
      | none => (.errVendorNotFound, db)
      | some _ =>
        let p := updateOne db booking_id
          (fun b => { b with vendor_id := some vid, updated_at := now })
        if p.2 then (.success, p.1) else (.errUpdateFailed, p.1)

/-- Case-insensitive substring test on lists of characters. -/
def listContainsSub (needle : List Char) : List Char → Bool
  | [] => needle.isEmpty
  | c :: t => needle.isPrefixOf (c :: t) || listContainsSub needle t

/-- Model of the Python test needle.lower() in hay.lower(): both sides
are lower-cased character-wise (the texts involved are ASCII) and the
needle is searched as a contiguous substring. -/
def strContainsLower (hay needle : String) : Bool :=
  listContainsSub (needle.data.map Char.toLower) (hay.data.map Char.toLower)

/-- The phrase required by the confirmation-text guard of
submit_signature (routes/signature.py). -/
def required_confirmation : String := "I confirm the service met my expectations"

/-- One document of the signatures collection as built by
Signature.create (app/models/signature.py).  The confirmation_text key is
present only on the submit_signature path.  Whatever signature_hash the
caller put into the data dict, Signature.create overwrites it with
SHA256 over booking id, customer id and its own current timestamp. -/
structure SignatureDoc where
  booking_id : String
  customer_id : String
  vendor_id : Option String
  signature_data : String
  signature_hash : Sha256
  confirmation_text : Option String
  signed_at : Nat
deriving DecidableEq, Repr

/-- Persistence accesses of a route, in execution order; notification
and audit writes that follow the booking update are not tracked. -/
inductive DbEffect where
  | readBooking (id : String)
  | insertSignature (s : SignatureDoc)
  | updateBooking (id : String)
deriving DecidableEq, Repr

/-- Result, effect trace and resulting bookings collection of one route
invocation. -/
structure RouteOutcome (ε α : Type) where
  result : Except ε α
  effects : List DbEffect
  db : List BookingDoc

deriving instance DecidableEq for Except

/-- Failure categories of submit_signature (routes/signature.py), one per
api_error_response site on the path up to the booking update. -/
inductive SubmitError where
  | bookingIdRequired
  | signatureDataRequired
  | confirmationRequired
  | bookingNotFound
  | accessDenied
  | notCompleted
  | sigNotRequired
  | expired
deriving DecidableEq, Repr

/-- Request body and caller of submit_signature. -/
structure SubmitInput where
  booking_id : Option String
  signature_data : Option String
  confirmation_text : String
  caller_id : String
deriving Repr

/-- submit_signature (routes/signature.py): input guards in source order
(booking_id present, signature_data present, confirmation phrase
case-insensitive substring), then the booking read and its guards
(owner, completed, signature_status unsigned or requested, half-open
expiry check now > timeout_at), then the Signature insert and the
booking update.  now is the clock at the route (expiry check, hash
content, signed_at) and nowModel the clock inside Signature.create,
which recomputes the stored hash from booking id, customer id and
nowModel only.  The booking keeps the hash computed at the route. -/
def submit_signature_route (db : List BookingDoc) (inp : SubmitInput)
    (now nowModel : Nat) : RouteOutcome SubmitError (SignatureDoc × Sha256) :=
  if isFalsyStr inp.booking_id then ⟨.error .bookingIdRequired, [], db⟩
  else if isFalsyStr inp.signature_data then ⟨.error .signatureDataRequired, [], db⟩
  else if !(strContainsLower inp.confirmation_text required_confirmation) then
    ⟨.error .confirmationRequired, [], db⟩
  else
    let bid := inp.booking_id.getD ""
    match findById db bid with
    | none => ⟨.error .bookingNotFound, [.readBooking bid], db⟩
    | some b =>
      if b.customer_id ≠ inp.caller_id then
        ⟨.error .accessDenied, [.readBooking bid], db⟩
      else if b.status ≠ Booking.STATUS_COMPLETED then
        ⟨.error .notCompleted, [.readBooking bid], db⟩
      else if !(b.signature_status == "unsigned" || b.signature_status == "requested") then
        ⟨.error .sigNotRequired, [.readBooking bid], db⟩
      else if (match b.signature_timeout_at with
               | some t => decide (t < now)
               | none => false) then
        ⟨.error .expired, [.readBooking bid], db⟩
      else
        let route_hash := sha256_hexdigest
          (bid ++ inp.caller_id ++ isoformat now ++ inp.confirmation_text)
        let record : SignatureDoc :=
          { booking_id := bid
            customer_id := inp.caller_id
            vendor_id := b.vendor_id
            signature_data := inp.signature_data.getD ""
            signature_hash := sha256_hexdigest (bid ++ inp.caller_id ++ isoformat nowModel)
            confirmation_text := some inp.confirmation_text
            signed_at := now }
        let p := Booking.submit_signature_model db bid route_hash now
        ⟨.ok (record, route_hash),
         [.readBooking bid, .insertSignature record, .updateBooking bid], p.1⟩

/-- Failure categories of sign_booking (routes/customer.py). -/
inductive SignError where
  | bookingNotFound
  | accessDenied
  | notCompleted
  | alreadySigned
deriving DecidableEq, Repr

/-- sign_booking (routes/customer.py), the second customer signing
endpoint at /bookings/id/sign: guards are owner, status completed and
signature_status not already signed; there is no expiry check and no
confirmation-text check.  It inserts a Signature record (whose hash
Signature.create computes from booking id, customer id and its clock
nowModel) and updates the booking to signature_status signed and status
verified through Booking.update, leaving signature_escalated as it
was. -/
def sign_booking_route (db : List BookingDoc) (booking_id caller : String)
    (signature_data : String) (nowModel now : Nat) :
    RouteOutcome SignError (SignatureDoc × Sha256) :=
  match findById db booking_id with
  | none => ⟨.error .bookingNotFound, [.readBooking booking_id], db⟩
  | some b =>
    if b.customer_id ≠ caller then
      ⟨.error .accessDenied, [.readBooking booking_id], db⟩
    else if b.status ≠ Booking.STATUS_COMPLETED then
      ⟨.error .notCompleted, [.readBooking booking_id], db⟩
    else if b.signature_status == "signed" then
      ⟨.error .alreadySigned, [.readBooking booking_id], db⟩
    else
      let record : SignatureDoc :=
        { booking_id := booking_id
          customer_id := caller
          vendor_id := b.vendor_id
          signature_data := signature_data
          signature_hash := sha256_hexdigest (booking_id ++ caller ++ isoformat nowModel)
          confirmation_text := none
          signed_at := nowModel }
      let p := updateOne db booking_id fun x =>
        { x with
          signature_status := "signed"
          signature_hash := some record.signature_hash
          status := Booking.STATUS_VERIFIED
          updated_at := now }
      ⟨.ok (record, record.signature_hash),
       [.readBooking booking_id, .insertSignature record, .updateBooking booking_id], p.1⟩

/-- The booking document produced by create_booking through
Booking.create: status pending and the signature axis at its defaults. -/
def createDoc (id customer_id : String) (vendor_id : Option String)
    (service_id : String) (now : Nat) : BookingDoc :=
  { id := id
    customer_id := customer_id
    vendor_id := vendor_id
    service_id := service_id
    status := Booking.STATUS_PENDING
    signature_status := "unsigned"
    signature_hash := none
    signature_requested_at := none
    signature_submitted_at := none
    signature_timeout_at := none
    signature_escalated := false
    updated_at := now }

/-- The public operations that can rewrite one booking document, one
constructor per route or sweep action that writes booking fields.
Actor-identity checks that do not touch the signature axis are not
modelled; the status guards of each route are. -/
inductive Ev where
  | adminConfirm
  | vendorAccept
  | vendorStart
  | vendorComplete
  | adminStart
  | adminComplete
  | adminCancel
  | adminReassign (vid : String)
  | completeAndRequest (now : Nat)
  | submitSignature (conf : String) (now : Nat)
  | signBooking (nowModel now : Nat)
  | escalateSweep (now : Nat)

/-- Per-booking semantics of each operation: none when the guards of the
corresponding route (or the sweep query) reject the document, otherwise
the rewritten document.  Faithful to routes/vendor.py,
routes/super_admin.py, routes/signature.py, routes/customer.py and
tasks/signature_monitor.py. -/
def stepEv (ev : Ev) (b : BookingDoc) : Option BookingDoc :=
  match ev with
  | .adminConfirm =>
    if b.status = "pending" then some { b with status := "accepted" } else none
  | .vendorAccept =>
    if b.status = "pending" then some { b with status := "accepted" } else none
  | .vendorStart =>
    if b.status = "accepted" then some { b with status := "in_progress" } else none
  | .vendorComplete =>
    if b.status = "in_progress" then some { b with status := "completed" } else none
  | .adminStart => some { b with status := "in_progress" }
  | .adminComplete => some { b with status := "completed" }
  | .adminCancel => some { b with status := "cancelled" }
  | .adminReassign vid => some { b with vendor_id := some vid }
  | .completeAndRequest now =>
    if b.status = "accepted" ∨ b.status = "in_progress" then
      some { b with
        status := "completed"
        signature_status := "requested"
        signature_requested_at := some now
        signature_timeout_at := some (now + 48 * 3600)
        updated_at := now }
    else none
  | .submitSignature conf now =>
    if b.status = "completed" ∧
       (b.signature_status = "unsigned" ∨ b.signature_status = "requested") ∧
       strContainsLower conf required_confirmation = true ∧
       (match b.signature_timeout_at with
        | some t => decide (now ≤ t)
        | none => true) = true then
      some { b with
        signature_status := "signed"
        signature_hash := some (sha256_hexdigest
          (b.id ++ b.customer_id ++ isoformat now ++ conf))
        signature_submitted_at := some now
        status := "verified"
        updated_at := now }
    else none
  | .signBooking nowModel now =>
    if b.status = "completed" ∧ b.signature_status ≠ "signed" then
      some { b with
        signature_status := "signed"
        signature_hash := some (sha256_hexdigest
          (b.id ++ b.customer_id ++ isoformat nowModel))
        status := "verified"
        updated_at := now }
    else none
  | .escalateSweep now =>
    if b.signature_status = "requested" ∧
       (match b.signature_timeout_at with
        | some t => decide (t < now)
        | none => false) = true ∧
       b.signature_escalated = false then
      some { b with
        signature_status := "expired"
        signature_escalated := true
        updated_at := now }
    else none

/-- Booking documents reachable from creation through the public
operations. -/
inductive Reachable : BookingDoc → Prop
  | init (id customer_id : String) (vendor_id : Option String)
      (service_id : String) (now : Nat) :
      Reachable (createDoc id customer_id vendor_id service_id now)
  | step (ev : Ev) (b b' : BookingDoc) :
      Reachable b → stepEv ev b = some b' → Reachable b'

/-! Concrete documents and environments used to evaluate the operations
at explicit inputs. -/

/-- A completed booking whose signature window already expired and was
escalated. -/
def fxEsc : BookingDoc :=
  { id := "b1", customer_id := "c1", vendor_id := some "v1", service_id := "s1",
    status := "completed", signature_status := "expired", signature_hash := none,
    signature_requested_at := some 100, signature_submitted_at := none,
    signature_timeout_at := some 200, signature_escalated := true, updated_at := 300 }

/-- A completed booking with a requested signature and a past timeout,
not yet escalated. -/
def fxReq : BookingDoc :=
  { fxEsc with
    signature_status := "requested"
    signature_escalated := false }

/-- A second candidate booking for the sweep, owned by another customer
and vendor. -/
def fxReq2 : BookingDoc :=
  { fxReq with
    id := "b2"
    customer_id := "c2"
    vendor_id := some "v2" }

/-- fxReq after the sweep escalated it at time 500. -/
def fxReqEsc : BookingDoc :=
  { fxReq with
    signature_status := "expired"
    signature_escalated := true
    updated_at := 500 }

/-- Sweep environment with two admins, the customer and vendor of fxReq
present, and no notification failures. -/
def fxEnv : SweepEnv :=
  ⟨["a1", "a2"], ["c1", "v1"], fun _ => false⟩

/-- Sweep environment in which dispatching a notification to the
customer of fxReq raises. -/
def fxEnvFail : SweepEnv :=
  ⟨["a1"], ["c1", "v1", "c2", "v2"], fun u => u == "c1"⟩

/-- Approved available vendor with id a. -/
def fxVendA : VendorDoc :=
  ⟨"a", "ua", "approved", true, ["600001"], ["Cleaning"], 4, 10⟩

/-- Approved available vendor with id b, attribute-identical to fxVendA. -/
def fxVendB : VendorDoc :=
  ⟨"b", "ub", "approved", true, ["600001"], ["Cleaning"], 4, 10⟩

/-- Approved available service-matching vendor with an empty pincode
list. -/
def fxVendEmpty : VendorDoc :=
  ⟨"e", "ue", "approved", true, [], ["Cleaning"], 4, 10⟩

/-- A vendor that is neither approved nor available. -/
def fxVendPending : VendorDoc :=
  ⟨"pv", "upv", "pending", false, [], [], 0, 0⟩

/-- A completed booking with a requested signature whose window closes
at time 1000. -/
def fxComp : BookingDoc :=
  { fxReq with signature_timeout_at := some 1000 }

/-- Submission by the owning customer with the exact required phrase. -/
def fxInpGood : SubmitInput :=
  ⟨some "b1", some "sig", "I confirm the service met my expectations", "c1"⟩

/-- Submission whose confirmation text contains the phrase with
different case and surrounding words. -/
def fxInpCase : SubmitInput :=
  ⟨some "b1", some "sig", "well, i CONFIRM the service met my expectations fully", "c1"⟩

/-- Submission whose confirmation text lacks the phrase. -/
def fxInpBad : SubmitInput :=
  ⟨some "b1", some "sig", "ok", "c1"⟩

/-- The Signature record produced by submitting fxInpGood on fxComp
with route clock 1000 and Signature.create clock 1001: its stored hash
covers booking id, customer id and the create-time clock only. -/
def fxRecC9 : SignatureDoc :=
  { booking_id := "b1", customer_id := "c1", vendor_id := some "v1",
    signature_data := "sig",
    signature_hash := sha256_hexdigest ("b1" ++ "c1" ++ isoformat 1001),
    confirmation_text := some "I confirm the service met my expectations",
    signed_at := 1000 }

/-- The hash the route computes and stores on the booking for the same
submission: booking id, customer id, route clock and confirmation
text. -/
def fxHashC9 : Sha256 :=
  sha256_hexdigest
    ("b1" ++ "c1" ++ isoformat 1000 ++ "I confirm the service met my expectations")

/-- Freshly created booking. -/
def fxC2Start : BookingDoc := createDoc "b1" "c1" (some "v1") "s1" 0

/-- fxC2Start after the vendor accepted. -/
def fxC2Acc : BookingDoc := { fxC2Start with status := "accepted" }

/-- fxC2Acc after complete_and_request_signature at time 1000. -/
def fxC2Comp : BookingDoc :=
  { fxC2Acc with
    status := "completed"
    signature_status := "requested"
    signature_requested_at := some 1000
    signature_timeout_at := some 173800
    updated_at := 1000 }

/-- fxC2Comp after the sweep escalated it at time 200000. -/
def fxC2Exp : BookingDoc :=
  { fxC2Comp with
    signature_status := "expired"
    signature_escalated := true
    updated_at := 200000 }

/-- fxC2Exp after sign_booking at times 300000 and 300001: signed and
verified while signature_escalated is still true. -/
def fxC2Bad : BookingDoc :=
  { fxC2Exp with
    signature_status := "signed"
    signature_hash := some (sha256_hexdigest ("b1" ++ "c1" ++ isoformat 300000))
    status := "verified"
    updated_at := 300001 }

/-- The escalation notifications one fully processed booking produces in
one sweep pass, in dispatch order: one per admin, then the customer,
then the vendor v (assuming customer and vendor records exist). -/
def escalationNotifs (env : SweepEnv) (b : BookingDoc) (v : String) (now : Nat) :
    List NotificationDoc :=
  env.admins.map (fun a => ⟨a, TYPE_ESCALATION, b.id, now⟩) ++
    [⟨b.customer_id, TYPE_ESCALATION, b.id, now⟩, ⟨v, TYPE_ESCALATION, b.id, now⟩]

/-! General lemmas about the list-backed collection operations. -/

/-- Unfolding of findById on a cons cell. -/
theorem findById_cons (x : BookingDoc) (rest : List BookingDoc) (bid : String) :
    findById (x :: rest) bid = if x.id = bid then some x else findById rest bid := by
  by_cases h : x.id = bid
  · simp [findById, List.find?, h]
  · have hb : (x.id == bid) = false := by simpa using h
    simp [findById, List.find?, hb, h]

/-- updateOne rewrites the document that findById returns. -/
theorem findById_updateOne (g : BookingDoc → BookingDoc) (hg : ∀ x, (g x).id = x.id)
    (db : List BookingDoc) :
    ∀ (bid : String) (b : BookingDoc), findById db bid = some b →
      findById (updateOne db bid g).1 bid = some (g b) := by
  induction db with
  | nil => intro bid b h; simp [findById] at h
  | cons x rest ih =>
    intro bid b h
    rw [findById_cons] at h
    by_cases hx : x.id = bid
    · rw [if_pos hx] at h
      cases h
      simp [updateOne, hx, findById_cons, hg]
    · rw [if_neg hx] at h
      simp [updateOne, hx, findById_cons]
      exact ih bid b h

/-- The modified flag of updateOne compares the rewritten document with
the one findById returns. -/
theorem updateOne_modified (g : BookingDoc → BookingDoc) (db : List BookingDoc) :
    ∀ (bid : String) (b : BookingDoc), findById db bid = some b →
      (updateOne db bid g).2 = decide (g b ≠ b) := by
  induction db with
  | nil => intro bid b h; simp [findById] at h
  | cons x rest ih =>
    intro bid b h
    rw [findById_cons] at h
    by_cases hx : x.id = bid
    · rw [if_pos hx] at h
      cases h
      simp [updateOne, hx]
    · rw [if_neg hx] at h
      simp [updateOne, hx]
      simpa using ih bid b h

/-- Every document in the output of updateOne is either an input
document or the rewrite of an input document. -/
theorem updateOne_mem (g : BookingDoc → BookingDoc) (db : List BookingDoc) :
    ∀ (bid : String) (x : BookingDoc), x ∈ (updateOne db bid g).1 →
      x ∈ db ∨ ∃ y, y ∈ db ∧ x = g y := by
  induction db with
  | nil => intro bid x hx; simp [updateOne] at hx
  | cons z rest ih =>
    intro bid x hx
    by_cases hz : z.id = bid
    · simp only [updateOne, if_pos hz] at hx
      rcases List.mem_cons.mp hx with h | h
      · exact Or.inr ⟨z, List.mem_cons_self z rest, h⟩
      · exact Or.inl (List.mem_cons_of_mem z h)
    · simp only [updateOne, if_neg hz] at hx
      rcases List.mem_cons.mp hx with h | h
      · exact Or.inl (h ▸ List.mem_cons_self z rest)
      · rcases ih bid x h with h' | ⟨y, hy, hxy⟩
        · exact Or.inl (List.mem_cons_of_mem z h')
        · exact Or.inr ⟨y, List.mem_cons_of_mem z hy, hxy⟩

/-- C4 counterexample: two eligible candidates that are identical in
every scored attribute (ratings, completed jobs, availability, pincodes,
services) but have different ids, listed with the larger id first.  The
claim requires the lexicographically smaller id a to win the tie; the
code returns the first candidate in list order, id b. -/
theorem alloc_full_tie_ignores_id :
    auto_select_vendor [fxVendB, fxVendA] = some fxVendB ∧
    fxVendA.id = "a" ∧ fxVendB.id = "b" ∧ fxVendA.id ≠ fxVendB.id ∧
    fxVendA.ratings = fxVendB.ratings ∧
    fxVendA.completed_jobs = fxVendB.completed_jobs ∧
    fxVendA.availability = fxVendB.availability ∧
    fxVendA.pincodes = fxVendB.pincodes ∧
    fxVendA.services = fxVendB.services := by decide

/-- C4 amended: auto-allocation maximises the tuple
(ratings, completed_jobs, availability); between two candidates with
equal ratings and equal availability the one with strictly more
completed jobs wins, and a full tie goes to the first candidate in list
order, whatever the ids.  The selection is a pure function of the
ordered candidate list, so repeated calls agree. -/
theorem alloc_tie_break (v w : VendorDoc)
    (hr : v.ratings = w.ratings) (ha : v.availability = w.availability) :
    auto_select_vendor [v, w] =
      some (if v.completed_jobs < w.completed_jobs then w else v) := by
  by_cases hc : v.completed_jobs < w.completed_jobs <;>
    simp [auto_select_vendor, allocKeyLt, allocKey, hr, ha, hc, lt_irrefl]

/-- C4 witness: evaluation of alloc_tie_break on concrete candidates: with equal
ratings and availability the candidate with more completed jobs is
selected even when listed second. -/
theorem alloc_tie_break_witness :
    auto_select_vendor [fxVendB, { fxVendA with completed_jobs := 11 }] =
      some (if fxVendB.completed_jobs < ({ fxVendA with completed_jobs := 11 } : VendorDoc).completed_jobs
            then { fxVendA with completed_jobs := 11 } else fxVendB) :=
  alloc_tie_break fxVendB { fxVendA with completed_jobs := 11 } (by decide) (by decide)

/-- C6 counterexample: an approved, available, service-matching vendor
with an empty pincode list is not returned by the auto-allocation
candidate query for any booking pincode, because the Mongo equality
filter on the pincodes array matches by membership and an empty array
contains nothing. -/
theorem empty_pincode_vendor_excluded :
    Vendor.find_available_by_service [fxVendEmpty] "Cleaning" (some "600001") = [] ∧
    fxVendEmpty.onboarding_status = Vendor.STATUS_APPROVED ∧
    fxVendEmpty.availability = true ∧
    fxVendEmpty.services.contains "Cleaning" = true ∧
    fxVendEmpty.pincodes = [] := by decide

/-- C6 amended: whenever a non-empty booking pincode is passed to the
candidate query, a vendor with an empty pincode list is excluded, so in
auto-allocation (which always passes the validated booking pincode) an
empty list means serves nowhere; the serves-everywhere reading holds
only in the customer-selected-vendor validation of create_booking, whose
check accepts an empty list. -/
theorem pincode_filter_excludes_empty (db : List VendorDoc) (v : VendorDoc)
    (s p : String) (hp : p ≠ "") (hemp : v.pincodes = []) :
    v ∉ Vendor.find_available_by_service db s (some p) ∧
    selected_vendor_serves_pincode v p = true := by
  constructor
  · intro hmem
    rw [Vendor.find_available_by_service, List.mem_filter] at hmem
    rcases hmem with ⟨-, hpred⟩
    simp [hemp, hp] at hpred
  · simp [selected_vendor_serves_pincode, hemp]

/-- C6 witness: evaluation of pincode_filter_excludes_empty on the
concrete empty-pincode vendor. -/
theorem pincode_filter_excludes_empty_witness :
    fxVendEmpty ∉ Vendor.find_available_by_service [fxVendEmpty] "Cleaning" (some "600001") ∧
    selected_vendor_serves_pincode fxVendEmpty "600001" = true :=
  pincode_filter_excludes_empty [fxVendEmpty] fxVendEmpty "Cleaning" "600001"
    (by decide) (by decide)

/-- C7 counterexample: reassigning a booking to an existing vendor that
is neither approved nor available succeeds and rewrites vendor_id, where
the claim requires a validation failure leaving vendor_id unchanged. -/
theorem reassign_accepts_unapproved_vendor :
    (admin_reassign_booking [fxReq] [fxVendPending] "b1" (some "pv") 99).1 =
      ReassignResult.success ∧
    (admin_reassign_booking [fxReq] [fxVendPending] "b1" (some "pv") 99).2.map
      (fun b => b.vendor_id) = [some "pv"] ∧
    fxVendPending.onboarding_status ≠ Vendor.STATUS_APPROVED ∧
    fxVendPending.availability = false ∧
    fxReq.vendor_id = some "v1" := by decide

/-- C7 amended: admin_reassign_booking validates only that a vendor_id
was sent and that the booking and the vendor exist; it then succeeds for
any such vendor, whatever its approval status or availability, rewriting
only vendor_id and updated_at and leaving every booking status and
signature_status unchanged. -/
theorem reassign_existence_only (db : List BookingDoc) (vendors : List VendorDoc)
    (booking_id vid : String) (now : Nat) (b : BookingDoc) (v : VendorDoc)
    (hvid : vid ≠ "")
    (hfb : findById db booking_id = some b)
    (hfv : Vendor.find_by_id vendors vid = some v)
    (hch : b.vendor_id ≠ some vid) :
    (admin_reassign_booking db vendors booking_id (some vid) now).1 =
      ReassignResult.success ∧
    findById (admin_reassign_booking db vendors booking_id (some vid) now).2 booking_id =
      some { b with vendor_id := some vid, updated_at := now } ∧
    ∀ x ∈ (admin_reassign_booking db vendors booking_id (some vid) now).2,
      ∃ y, y ∈ db ∧ x.id = y.id ∧ x.status = y.status ∧
        x.signature_status = y.signature_status := by
  have hne : (fun x : BookingDoc => { x with vendor_id := some vid, updated_at := now }) b ≠ b := by
    intro h
    have h2 : some vid = b.vendor_id := congrArg BookingDoc.vendor_id h
    exact hch h2.symm
  have hmod : (updateOne db booking_id
      (fun x => { x with vendor_id := some vid, updated_at := now })).2 = true := by
    rw [updateOne_modified (fun x => { x with vendor_id := some vid, updated_at := now })
      db booking_id b hfb]
    exact decide_eq_true hne
  have hres : admin_reassign_booking db vendors booking_id (some vid) now =
      (ReassignResult.success,
       (updateOne db booking_id (fun x => { x with vendor_id := some vid, updated_at := now })).1) := by
    simp [admin_reassign_booking, isFalsyStr, hvid, hfb, hfv, hmod]
  refine ⟨by rw [hres], ?_, ?_⟩
  · rw [hres]
    exact findById_updateOne (fun x => { x with vendor_id := some vid, updated_at := now })
      (fun x => rfl) db booking_id b hfb
  · intro x hx
    rw [hres] at hx
    rcases updateOne_mem (fun x => { x with vendor_id := some vid, updated_at := now })
      db booking_id x hx with h | ⟨y, hy, hxy⟩
    · exact ⟨x, h, rfl, rfl, rfl⟩
    · exact ⟨y, hy, by rw [hxy], by rw [hxy], by rw [hxy]⟩

/-- C7 witness: evaluation of reassign_existence_only on a concrete
booking and the concrete unapproved, unavailable vendor. -/
theorem reassign_existence_only_witness :
    (admin_reassign_booking [fxReq] [fxVendPending] "b1" (some "pv") 99).1 =
      ReassignResult.success ∧
    findById (admin_reassign_booking [fxReq] [fxVendPending] "b1" (some "pv") 99).2 "b1" =
      some { fxReq with vendor_id := some "pv", updated_at := 99 } ∧
    ∀ x ∈ (admin_reassign_booking [fxReq] [fxVendPending] "b1" (some "pv") 99).2,
      ∃ y, y ∈ [fxReq] ∧ x.id = y.id ∧ x.status = y.status ∧
        x.signature_status = y.signature_status :=
  reassign_existence_only [fxReq] [fxVendPending] "b1" "pv" 99 fxReq fxVendPending
    (by decide) (by decide) (by decide) (by decide)

/-- C5: for a booking in status completed with signature_status unsigned
or requested, a set timeout and an otherwise valid submission by the
owning customer, submit_signature fails with the expiry error exactly
when the current time is strictly past signature_timeout_at; submission
at or before the timeout is not rejected for expiry. -/
theorem submit_expiry_boundary
    (db : List BookingDoc) (inp : SubmitInput) (now nowModel t : Nat)
    (b : BookingDoc) (bid sd : String)
    (hbid : inp.booking_id = some bid) (hbidne : bid ≠ "")
    (hsd : inp.signature_data = some sd) (hsdne : sd ≠ "")
    (hconf : strContainsLower inp.confirmation_text required_confirmation = true)
    (hfind : findById db bid = some b)
    (howner : b.customer_id = inp.caller_id)
    (hstatus : b.status = "completed")
    (hsig : b.signature_status = "unsigned" ∨ b.signature_status = "requested")
    (htmo : b.signature_timeout_at = some t) :
    ((submit_signature_route db inp now nowModel).result =
      .error .expired ↔ t < now) := by
  rcases hsig with hsig | hsig <;>
    by_cases hlt : t < now <;>
      simp [submit_signature_route, isFalsyStr, hbid, hbidne, hsd, hsdne, hconf,
        hfind, howner, hstatus, hsig, htmo, hlt, Booking.STATUS_COMPLETED]

/-- C5 witness: evaluation of submit_expiry_boundary at the boundary: with the
window closing at 1000, submission at clock 1000 is not an expiry
failure and submission at clock 1001 is. -/
theorem submit_expiry_boundary_witness :
    ((submit_signature_route [fxComp] fxInpGood 1000 1001).result =
      .error .expired ↔ (1000 : Nat) < 1000) ∧
    ((submit_signature_route [fxComp] fxInpGood 1001 1002).result =
      .error .expired ↔ (1000 : Nat) < 1001) :=
  ⟨submit_expiry_boundary [fxComp] fxInpGood 1000 1001 1000 fxComp "b1" "sig"
      (by decide) (by decide) (by decide) (by decide) (by decide) (by decide)
      (by decide) (by decide) (Or.inr (by decide)) (by decide),
   submit_expiry_boundary [fxComp] fxInpGood 1001 1002 1000 fxComp "b1" "sig"
      (by decide) (by decide) (by decide) (by decide) (by decide) (by decide)
      (by decide) (by decide) (Or.inr (by decide)) (by decide)⟩

/-- C8: the confirmation-text guard of submit_signature is the
case-insensitive substring test for the required phrase and runs before
any persistence access: every input whose text lacks the phrase is
rejected with an empty effect trace and an unchanged collection, and
whenever the text contains the phrase (ignoring case) the guard never
produces the confirmation rejection. -/
theorem submit_confirmation_guard
    (db : List BookingDoc) (inp : SubmitInput) (now nowModel : Nat) :
    (strContainsLower inp.confirmation_text required_confirmation = false →
      (∃ e, (submit_signature_route db inp now nowModel).result = .error e) ∧
      (submit_signature_route db inp now nowModel).effects = [] ∧
      (submit_signature_route db inp now nowModel).db = db) ∧
    (strContainsLower inp.confirmation_text required_confirmation = true →
      (submit_signature_route db inp now nowModel).result ≠
        .error .confirmationRequired) := by
  constructor
  · intro h
    simp only [submit_signature_route]
    split_ifs with h1 h2 h3
    · exact ⟨⟨_, rfl⟩, rfl, rfl⟩
    · exact ⟨⟨_, rfl⟩, rfl, rfl⟩
    · exact ⟨⟨_, rfl⟩, rfl, rfl⟩
    · simp [h] at h3
  · intro h
    simp only [submit_signature_route]
    split_ifs with h1 h2 h3
    · simp
    · simp
    · simp [h] at h3
    · cases hf : findById db (inp.booking_id.getD "") with
      | none => simp [hf]
      | some b =>
        simp only [hf]
        split_ifs <;> simp

/-- C8 witness: evaluation of submit_confirmation_guard: the text ok is rejected
with no persistence access, and a text containing the phrase with
different case and surrounding words passes the guard. -/
theorem submit_confirmation_guard_witness :
    ((∃ e, (submit_signature_route [fxComp] fxInpBad 500 501).result = .error e) ∧
     (submit_signature_route [fxComp] fxInpBad 500 501).effects = [] ∧
     (submit_signature_route [fxComp] fxInpBad 500 501).db = [fxComp]) ∧
    (submit_signature_route [fxComp] fxInpCase 500 501).result ≠
      .error .confirmationRequired :=
  ⟨(submit_confirmation_guard [fxComp] fxInpBad 500 501).1 (by decide),
   (submit_confirmation_guard [fxComp] fxInpCase 500 501).2 (by decide)⟩

/-- C9 counterexample: a concrete successful submission (route clock
1000, Signature.create clock 1001) in which the hash persisted on the
Signature record omits the confirmation text entirely, so it differs
from SHA256 over booking id, customer id, timestamp and confirmation
text at either clock, and differs from the signature_hash stored on the
booking. -/
theorem signature_record_hash_mismatch :
    (submit_signature_route [fxComp] fxInpGood 1000 1001).result =
      .ok (fxRecC9, fxHashC9) ∧
    fxRecC9.signature_hash ≠ fxHashC9 ∧
    fxRecC9.signature_hash ≠ sha256_hexdigest
      ("b1" ++ "c1" ++ isoformat 1001 ++ "I confirm the service met my expectations") ∧
    (findById (submit_signature_route [fxComp] fxInpGood 1000 1001).db "b1").map
      (fun x => x.signature_hash) = some (some fxHashC9) := by decide

/-- C9 amended: on a successful submission the booking stores the hash
the route computed, SHA256 over booking id, customer id, route
timestamp and confirmation text, while the Signature record stores the
hash Signature.create recomputed, SHA256 over booking id, customer id
and the create-time clock only (no confirmation text); the two differ
whenever their preimages differ. -/
theorem submit_hash_contents
    (db : List BookingDoc) (inp : SubmitInput) (now nowModel t : Nat)
    (b : BookingDoc) (bid sd : String)
    (hbid : inp.booking_id = some bid) (hbidne : bid ≠ "")
    (hsd : inp.signature_data = some sd) (hsdne : sd ≠ "")
    (hconf : strContainsLower inp.confirmation_text required_confirmation = true)
    (hfind : findById db bid = some b)
    (howner : b.customer_id = inp.caller_id)
    (hstatus : b.status = "completed")
    (hsig : b.signature_status = "unsigned" ∨ b.signature_status = "requested")
    (htmo : b.signature_timeout_at = some t) (hnow : ¬ t < now) :
    (submit_signature_route db inp now nowModel).result =
      .ok ({ booking_id := bid, customer_id := inp.caller_id, vendor_id := b.vendor_id,
             signature_data := sd,
             signature_hash := sha256_hexdigest (bid ++ inp.caller_id ++ isoformat nowModel),
             confirmation_text := some inp.confirmation_text, signed_at := now },
           sha256_hexdigest (bid ++ inp.caller_id ++ isoformat now ++ inp.confirmation_text)) ∧
    findById (submit_signature_route db inp now nowModel).db bid =
      some { b with
        signature_status := "signed"
        signature_hash := some (sha256_hexdigest
          (bid ++ inp.caller_id ++ isoformat now ++ inp.confirmation_text))
        signature_submitted_at := some now
        status := "verified"
        updated_at := now } ∧
    (bid ++ inp.caller_id ++ isoformat nowModel ≠
        bid ++ inp.caller_id ++ isoformat now ++ inp.confirmation_text →
      sha256_hexdigest (bid ++ inp.caller_id ++ isoformat nowModel) ≠
        sha256_hexdigest (bid ++ inp.caller_id ++ isoformat now ++ inp.confirmation_text)) := by
  refine ⟨?_, ?_, ?_⟩
  · rcases hsig with hsig | hsig <;>
      simp [submit_signature_route, isFalsyStr, hbid, hbidne, hsd, hsdne, hconf,
        hfind, howner, hstatus, hsig, htmo, hnow, Booking.STATUS_COMPLETED]
  · have hdb : (submit_signature_route db inp now nowModel).db =
        (updateOne db bid (fun x =>
          { x with
            signature_status := "signed"
            signature_hash := some (sha256_hexdigest
              (bid ++ inp.caller_id ++ isoformat now ++ inp.confirmation_text))
            signature_submitted_at := some now
            status := Booking.STATUS_VERIFIED
            updated_at := now })).1 := by
      rcases hsig with hsig | hsig <;>
        simp [submit_signature_route, isFalsyStr, hbid, hbidne, hsd, hsdne, hconf,
          hfind, howner, hstatus, hsig, htmo, hnow, Booking.STATUS_COMPLETED,
          Booking.submit_signature_model]
    rw [hdb]
    have h2 := findById_updateOne (fun x =>
      { x with
        signature_status := "signed"
        signature_hash := some (sha256_hexdigest
          (bid ++ inp.caller_id ++ isoformat now ++ inp.confirmation_text))
        signature_submitted_at := some now
        status := Booking.STATUS_VERIFIED
        updated_at := now }) (fun x => rfl) db bid b hfind
    simpa [Booking.STATUS_VERIFIED] using h2
  · intro hpre heq
    exact hpre (congrArg Sha256.preimage heq)

/-- C9 witness: evaluation of submit_hash_contents on the concrete
submission of the counterexample, discharging the preimage-difference hypothesis by
computation. -/
theorem submit_hash_contents_witness :
    (submit_signature_route [fxComp] fxInpGood 1000 1001).result =
      .ok ({ booking_id := "b1", customer_id := fxInpGood.caller_id,
             vendor_id := fxComp.vendor_id, signature_data := "sig",
             signature_hash := sha256_hexdigest ("b1" ++ fxInpGood.caller_id ++ isoformat 1001),
             confirmation_text := some fxInpGood.confirmation_text, signed_at := 1000 },
           sha256_hexdigest
             ("b1" ++ fxInpGood.caller_id ++ isoformat 1000 ++ fxInpGood.confirmation_text)) ∧
    findById (submit_signature_route [fxComp] fxInpGood 1000 1001).db "b1" =
      some { fxComp with
        signature_status := "signed"
        signature_hash := some (sha256_hexdigest
          ("b1" ++ fxInpGood.caller_id ++ isoformat 1000 ++ fxInpGood.confirmation_text))
        signature_submitted_at := some 1000
        status := "verified"
        updated_at := 1000 } ∧
    ("b1" ++ fxInpGood.caller_id ++ isoformat 1001 ≠
        "b1" ++ fxInpGood.caller_id ++ isoformat 1000 ++ fxInpGood.confirmation_text →
      sha256_hexdigest ("b1" ++ fxInpGood.caller_id ++ isoformat 1001) ≠
        sha256_hexdigest
          ("b1" ++ fxInpGood.caller_id ++ isoformat 1000 ++ fxInpGood.confirmation_text)) :=
  submit_hash_contents [fxComp] fxInpGood 1000 1001 1000 fxComp "b1" "sig"
    (by decide) (by decide) (by decide) (by decide) (by decide) (by decide)
    (by decide) (by decide) (Or.inr (by decide)) (by decide) (by decide)

/-- C10: sign_booking succeeds for every booking owned by the caller in
status completed whose signature_status is not signed, with no
hypothesis about the timeout, the escalation flag or any confirmation
text: it returns a fresh Signature record and rewrites the booking to
signature_status signed and status verified, leaving
signature_escalated exactly as it was. -/
theorem sign_booking_ignores_expiry
    (db : List BookingDoc) (booking_id caller sd : String) (nowModel now : Nat)
    (b : BookingDoc)
    (hfind : findById db booking_id = some b)
    (howner : b.customer_id = caller)
    (hstatus : b.status = "completed")
    (hsig : b.signature_status ≠ "signed") :
    (sign_booking_route db booking_id caller sd nowModel now).result =
      .ok ({ booking_id := booking_id, customer_id := caller, vendor_id := b.vendor_id,
             signature_data := sd,
             signature_hash := sha256_hexdigest (booking_id ++ caller ++ isoformat nowModel),
             confirmation_text := none, signed_at := nowModel },
           sha256_hexdigest (booking_id ++ caller ++ isoformat nowModel)) ∧
    findById (sign_booking_route db booking_id caller sd nowModel now).db booking_id =
      some { b with
        signature_status := "signed"
        signature_hash := some (sha256_hexdigest (booking_id ++ caller ++ isoformat nowModel))
        status := "verified"
        updated_at := now } := by
  constructor
  · simp [sign_booking_route, hfind, howner, hstatus, hsig, Booking.STATUS_COMPLETED]
  · have hdb : (sign_booking_route db booking_id caller sd nowModel now).db =
        (updateOne db booking_id (fun x =>
          { x with
            signature_status := "signed"
            signature_hash := some (sha256_hexdigest (booking_id ++ caller ++ isoformat nowModel))
            status := Booking.STATUS_VERIFIED
            updated_at := now })).1 := by
      simp [sign_booking_route, hfind, howner, hstatus, hsig, Booking.STATUS_COMPLETED]
    rw [hdb]
    have h2 := findById_updateOne (fun x =>
      { x with
        signature_status := "signed"
        signature_hash := some (sha256_hexdigest (booking_id ++ caller ++ isoformat nowModel))
        status := Booking.STATUS_VERIFIED
        updated_at := now }) (fun x => rfl) db booking_id b hfind
    simpa [Booking.STATUS_VERIFIED] using h2

/-- C10 witness: evaluation of sign_booking_ignores_expiry on an escalated booking
whose window expired long ago: the sign endpoint still succeeds and the
resulting document keeps signature_escalated true while signed and
verified. -/
theorem sign_booking_ignores_expiry_witness :
    ((sign_booking_route [fxEsc] "b1" "c1" "img" 300000 300001).result =
      .ok ({ booking_id := "b1", customer_id := "c1", vendor_id := fxEsc.vendor_id,
             signature_data := "img",
             signature_hash := sha256_hexdigest ("b1" ++ "c1" ++ isoformat 300000),
             confirmation_text := none, signed_at := 300000 },
           sha256_hexdigest ("b1" ++ "c1" ++ isoformat 300000)) ∧
    findById (sign_booking_route [fxEsc] "b1" "c1" "img" 300000 300001).db "b1" =
      some { fxEsc with
        signature_status := "signed"
        signature_hash := some (sha256_hexdigest ("b1" ++ "c1" ++ isoformat 300000))
        status := "verified"
        updated_at := 300001 }) ∧
    fxEsc.signature_escalated = true ∧ fxEsc.signature_timeout_at = some 200 :=
  ⟨sign_booking_ignores_expiry [fxEsc] "b1" "c1" "img" 300000 300001 fxEsc
      (by decide) (by decide) (by decide) (by decide),
   by decide, by decide⟩

/-- C2 counterexample: a reachable booking violating the invariant.
Create, vendor-accept, complete-with-signature-request at time 1000,
sweep escalation at time 200000, then sign_booking: the final document
has signature_escalated true with signature_status signed, because
sign_booking never clears the escalation flag. -/
theorem sign_breaks_escalated_invariant :
    Reachable fxC2Bad ∧ fxC2Bad.signature_escalated = true ∧
    fxC2Bad.signature_status ≠ "expired" := by
  refine ⟨?_, by decide, by decide⟩
  have h0 : Reachable fxC2Start := Reachable.init "b1" "c1" (some "v1") "s1" 0
  have h1 : Reachable fxC2Acc := Reachable.step .vendorAccept _ _ h0 (by decide)
  have h2 : Reachable fxC2Comp :=
    Reachable.step (.completeAndRequest 1000) _ _ h1 (by decide)
  have h3 : Reachable fxC2Exp :=
    Reachable.step (.escalateSweep 200000) _ _ h2 (by decide)
  exact Reachable.step (.signBooking 300000 300001) _ _ h3 (by decide)

/-- C2 amended: one half of the claimed invariant does hold operation
by operation: the sweep escalation is the only public operation that
turns signature_escalated from false to true, and when it does the same
write sets signature_status to expired.  The other half fails (see the
counterexample): sign_booking moves signature_status away from expired
while leaving signature_escalated true. -/
theorem escalated_only_with_expired (ev : Ev) (b b' : BookingDoc)
    (hstep : stepEv ev b = some b')
    (hb : b.signature_escalated = false)
    (hb' : b'.signature_escalated = true) :
    b'.signature_status = "expired" := by
  cases ev <;>
    simp only [stepEv] at hstep <;>
    (try split at hstep) <;>
    (try cases hstep) <;>
    simp_all

/-- C2 witness: evaluation of escalated_only_with_expired on the sweep
escalation of a concrete overdue booking. -/
theorem escalated_only_with_expired_witness :
    stepEv (.escalateSweep 500) fxReq = some fxReqEsc ∧
    fxReq.signature_escalated = false ∧ fxReqEsc.signature_escalated = true ∧
    fxReqEsc.signature_status = "expired" :=
  ⟨by decide, by decide, by decide,
   escalated_only_with_expired (.escalateSweep 500) fxReq fxReqEsc
     (by decide) (by decide) (by decide)⟩

/-! Lemmas about one sweep pass. -/

/-- Escalating the unique document of a singleton collection rewrites
it and reports modified whenever the flag was not yet set. -/
theorem escalate_single (b : BookingDoc) (now : Nat)
    (hesc : b.signature_escalated = false) :
    Booking.escalate_signature_timeout [b] b.id now =
      ([{ b with
            signature_status := "expired"
            signature_escalated := true
            updated_at := now }], true) := by
  have hne : ({ b with
      signature_status := "expired"
      signature_escalated := true
      updated_at := now } : BookingDoc) ≠ b := by
    intro h
    have h2 := congrArg BookingDoc.signature_escalated h
    simp [hesc] at h2
  simp [Booking.escalate_signature_timeout, updateOne, hne]

/-- With no dispatch failures, the admin loop appends one escalation
notification per admin, in order. -/
theorem notifyAdmins_ok (env : SweepEnv) (now : Nat) (bid : String)
    (hok : ∀ u, env.notifyFails u = false) (l : List String) :
    ∀ st : SweepState,
      notifyAdmins env now bid l st =
        .ok { st with notifs := st.notifs ++ l.map (fun a => ⟨a, TYPE_ESCALATION, bid, now⟩) } := by
  induction l with
  | nil => intro st; simp [notifyAdmins]
  | cons a rest ih =>
    intro st
    simp only [notifyAdmins, notificationCreate, hok a, if_false, Bool.false_eq_true]
    rw [ih]
    simp

/-- With no dispatch failures and existing customer and vendor records,
processing one not-yet-escalated booking escalates it, appends the full
escalation notification batch and one audit entry, and reports the
escalated branch. -/
theorem processExpired_ok_single
    (env : SweepEnv) (b : BookingDoc) (v : String) (now : Nat)
    (notifs0 : List NotificationDoc) (audits0 : List String)
    (hok : ∀ u, env.notifyFails u = false)
    (hvend : b.vendor_id = some v)
    (hcu : env.users.contains b.customer_id = true)
    (hvu : env.users.contains v = true)
    (hesc : b.signature_escalated = false) :
    processExpired env now b ⟨[b], notifs0, audits0⟩ =
      .ok (⟨[{ b with
               signature_status := "expired"
               signature_escalated := true
               updated_at := now }],
            notifs0 ++ escalationNotifs env b v now, audits0 ++ [b.id]⟩, true) := by
  simp only [processExpired, escalate_single b now hesc,
    notifyAdmins_ok env now b.id hok, hcu, hvend, hvu,
    notificationCreate, hok, escalationNotifs]
  simp

/-- Splitting the escalation loop at any point of the candidate list. -/
theorem sweepLoop_append (env : SweepEnv) (now : Nat) (l₁ l₂ : List BookingDoc) :
    ∀ (st : SweepState) (c : Nat),
      sweepLoop env now (l₁ ++ l₂) st c =
        match sweepLoop env now l₁ st c with
        | .ok (st', c') => sweepLoop env now l₂ st' c'
        | .error e => .error e := by
  induction l₁ with
  | nil => intro st c; simp [sweepLoop]
  | cons b rest ih =>
    intro st c
    rw [List.cons_append]
    simp only [sweepLoop]
    cases hpe : processExpired env now b st with
    | error e => simp
    | ok p => cases p with
      | mk st' esc => simp [ih]

/-- C1 counterexample: invoking escalate on a booking that is already
expired and escalated is reported as modified (update_one rewrites
updated_at, so modified_count is 1 and the model returns true) and does
change state, where the claim requires a no-op reported as
not-modified. -/
theorem escalate_reinvocation_reports_modified :
    Booking.escalate_signature_timeout [fxEsc] "b1" 400 =
      ([{ fxEsc with updated_at := 400 }], true) ∧
    fxEsc.signature_status = "expired" ∧ fxEsc.signature_escalated = true ∧
    fxEsc.updated_at = 300 := by decide

/-- C1 amended: escalate itself has no guard and always reports
modified when the write changes anything (including updated_at), but
exactly-once escalation holds at the sweep level: the sweep query skips
bookings with signature_escalated true, so running the sweep twice on a
requested booking with a past timeout escalates it exactly once, leaves
state untouched on the second run, and dispatches at most one
escalation notification per recipient for the booking. -/
theorem sweep_escalates_exactly_once
    (env : SweepEnv) (b : BookingDoc) (v : String) (t now1 now2 : Nat)
    (hok : ∀ u, env.notifyFails u = false)
    (hnodup : env.admins.Nodup)
    (hca : b.customer_id ∉ env.admins)
    (hva : v ∉ env.admins)
    (hcv : v ≠ b.customer_id)
    (hvend : b.vendor_id = some v)
    (hcu : env.users.contains b.customer_id = true)
    (hvu : env.users.contains v = true)
    (hreq : b.signature_status = "requested")
    (htmo : b.signature_timeout_at = some t)
    (ht : t < now1)
    (hesc : b.signature_escalated = false) :
    check_signature_timeouts env now1 [b] [] =
      (1, ⟨[{ b with
              signature_status := "expired"
              signature_escalated := true
              updated_at := now1 }],
           escalationNotifs env b v now1, [b.id]⟩) ∧
    check_signature_timeouts env now2
        (check_signature_timeouts env now1 [b] []).2.db
        (check_signature_timeouts env now1 [b] []).2.notifs =
      (0, ⟨(check_signature_timeouts env now1 [b] []).2.db,
           (check_signature_timeouts env now1 [b] []).2.notifs, []⟩) ∧
    ((escalationNotifs env b v now1).map (fun n => n.user_id)).Nodup ∧
    (∀ n ∈ escalationNotifs env b v now1,
      n.booking_id = b.id ∧ n.ntype = TYPE_ESCALATION) := by
  have hq1 : Booking.get_expired_signatures [b] now1 = [b] := by
    simp [Booking.get_expired_signatures, List.filter, hreq, htmo, ht, hesc]
  have hrun1 : check_signature_timeouts env now1 [b] [] =
      (1, ⟨[{ b with
              signature_status := "expired"
              signature_escalated := true
              updated_at := now1 }],
           escalationNotifs env b v now1, [b.id]⟩) := by
    simp only [check_signature_timeouts, hq1, sweepLoop,
      processExpired_ok_single env b v now1 [] [] hok hvend hcu hvu hesc]
    simp
  refine ⟨hrun1, ?_, ?_, ?_⟩
  · rw [hrun1]
    have hq2 : Booking.get_expired_signatures
        [{ b with
           signature_status := "expired"
           signature_escalated := true
           updated_at := now1 }] now2 = [] := by
      simp [Booking.get_expired_signatures, List.filter]
    simp only [check_signature_timeouts, hq2, sweepLoop]
  · have hmap : (escalationNotifs env b v now1).map (fun n => n.user_id) =
        env.admins ++ [b.customer_id, v] := by
      simp [escalationNotifs, Function.comp_def]
    rw [hmap]
    refine List.Nodup.append hnodup ?_ ?_
    · simp [List.nodup_cons]
      exact Ne.symm hcv
    · intro a ha hmem
      rcases List.mem_cons.mp hmem with h | h
      · exact hca (h ▸ ha)
      · rcases List.mem_cons.mp h with h2 | h2
        · exact hva (h2 ▸ ha)
        · simp at h2
  · intro n hn
    rcases List.mem_append.mp hn with h | h
    · rcases List.mem_map.mp h with ⟨a, ha, rfl⟩
      exact ⟨rfl, rfl⟩
    · rcases List.mem_cons.mp h with h2 | h2
      · rw [h2]; exact ⟨rfl, rfl⟩
      · rcases List.mem_cons.mp h2 with h3 | h3
        · rw [h3]; exact ⟨rfl, rfl⟩
        · simp at h3

/-- C1 witness: evaluation of sweep_escalates_exactly_once on a
concrete overdue booking and a two-admin environment. -/
theorem sweep_escalates_exactly_once_witness :
    check_signature_timeouts fxEnv 500 [fxReq] [] =
      (1, ⟨[{ fxReq with
              signature_status := "expired"
              signature_escalated := true
              updated_at := 500 }],
           escalationNotifs fxEnv fxReq "v1" 500, ["b1"]⟩) ∧
    check_signature_timeouts fxEnv 900
        (check_signature_timeouts fxEnv 500 [fxReq] []).2.db
        (check_signature_timeouts fxEnv 500 [fxReq] []).2.notifs =
      (0, ⟨(check_signature_timeouts fxEnv 500 [fxReq] []).2.db,
           (check_signature_timeouts fxEnv 500 [fxReq] []).2.notifs, []⟩) ∧
    ((escalationNotifs fxEnv fxReq "v1" 500).map (fun n => n.user_id)).Nodup ∧
    (∀ n ∈ escalationNotifs fxEnv fxReq "v1" 500,
      n.booking_id = "b1" ∧ n.ntype = TYPE_ESCALATION) :=
  sweep_escalates_exactly_once fxEnv fxReq "v1" 200 500 900
    (fun _ => rfl) (by decide) (by decide) (by decide) (by decide) (by decide)
    (by decide) (by decide) (by decide) (by decide) (by decide) (by decide)

/-- C3 counterexample: with two overdue candidates and a notification
dispatch failure while processing the first, the sweep returns 0 and the
second candidate is neither escalated nor notified nor audited in that
invocation, where the claim requires every remaining candidate to still
be processed. -/
theorem sweep_failure_aborts_remaining :
    Booking.get_expired_signatures [fxReq, fxReq2] 500 = [fxReq, fxReq2] ∧
    (check_signature_timeouts fxEnvFail 500 [fxReq, fxReq2] []).1 = 0 ∧
    (check_signature_timeouts fxEnvFail 500 [fxReq, fxReq2] []).2.db.map
      (fun x => (x.id, x.signature_status, x.signature_escalated)) =
      [("b1", "expired", true), ("b2", "requested", false)] ∧
    (check_signature_timeouts fxEnvFail 500 [fxReq, fxReq2] []).2.notifs =
      [⟨"a1", TYPE_ESCALATION, "b1", 500⟩] ∧
    (check_signature_timeouts fxEnvFail 500 [fxReq, fxReq2] []).2.audits = [] := by
  decide

/-- C3 amended: the whole escalation loop runs inside a single
try/except, so an exception while processing one candidate is caught at
the sweep level, the function returns 0 as the escalated count, and its
result is exactly the state at the raise point: candidates after the
failing one are not processed in that invocation (the result does not
depend on them at all). -/
theorem sweep_exception_returns_zero
    (env : SweepEnv) (now : Nat) (db : List BookingDoc)
    (notifs : List NotificationDoc) (l₁ l₂ : List BookingDoc)
    (bfail : BookingDoc) (st stErr : SweepState) (c : Nat)
    (hsplit : Booking.get_expired_signatures db now = l₁ ++ bfail :: l₂)
    (hpre : sweepLoop env now l₁ ⟨db, notifs, []⟩ 0 = .ok (st, c))
    (hfail : processExpired env now bfail st = .error stErr) :
    check_signature_timeouts env now db notifs = (0, stErr) := by
  have hform : check_signature_timeouts env now db notifs =
      match sweepLoop env now (l₁ ++ bfail :: l₂) ⟨db, notifs, []⟩ 0 with
      | .ok (st2, c2) => (c2, st2)
      | .error e => (0, e) := by
    simp only [check_signature_timeouts, hsplit]
  rw [hform, sweepLoop_append env now l₁ (bfail :: l₂) ⟨db, notifs, []⟩ 0, hpre]
  simp [sweepLoop, hfail]

/-- C3 witness: evaluation of sweep_exception_returns_zero on the
concrete failing sweep of the counterexample, with the failing candidate first and one
candidate after it. -/
theorem sweep_exception_returns_zero_witness :
    check_signature_timeouts fxEnvFail 500 [fxReq, fxReq2] [] =
      (0, ⟨[fxReqEsc, fxReq2], [⟨"a1", TYPE_ESCALATION, "b1", 500⟩], []⟩) :=
  sweep_exception_returns_zero fxEnvFail 500 [fxReq, fxReq2] [] [] [fxReq2] fxReq
    ⟨[fxReq, fxReq2], [], []⟩
    ⟨[fxReqEsc, fxReq2], [⟨"a1", TYPE_ESCALATION, "b1", 500⟩], []⟩ 0
    (by decide) (by decide) (by decide)

end HomeServePro
